import Mathlib

/-!
Shallow embedding of the costing/ledger engine of `src/app.py`
(class `FinanceSystem` plus the aggregation queries issued by
`run_dashboard`).  SQLite REAL values are modelled as rationals,
integer columns as `Int`, and the `DATE` column as an abstract
`Int` day number (only ordering of dates matters to the code).
The three settings rows seeded by `setup_database` are modelled as
a record with one field per recognized key.
-/

namespace FinanceApp

/-- A row of the `products` table
(`id, name, print_time, filament_weight, sale_price`). -/
structure Product where
  id : Int
  name : String
  print_time : ℚ
  filament_weight : ℚ
  sale_price : ℚ
deriving DecidableEq, Repr

/-- A row of the `sales` table.  The column `sale_price` holds the total
sale amount for the whole quantity (`product[4] * quantity` at insert). -/
structure Sale where
  id : Int
  product_id : Int
  quantity : Int
  sale_price : ℚ
  filament_cost : ℚ
  energy_cost : ℚ
  date : Int
deriving DecidableEq, Repr

/-- The `settings` table: one value per recognized key
(`kwh_price`, `printer_power`, `filament_price_kg`), seeded by
`setup_database` so all three keys are always present. -/
structure Settings where
  kwh_price : ℚ
  printer_power : ℚ
  filament_price_kg : ℚ
deriving DecidableEq, Repr

/-- The default settings rows inserted by `setup_database`
(`0.80`, `200`, `80.0`). -/
def defaultSettings : Settings :=
  { kwh_price := 8/10, printer_power := 200, filament_price_kg := 80 }

/-- Database state of a `FinanceSystem`, together with `today`, the value
`datetime.now().date()` would produce at the next insert. -/
structure State where
  products : List Product
  sales : List Sale
  settings : Settings
  today : Int
deriving DecidableEq, Repr

/-- Errors a `FinanceSystem` call can surface.  `typeError` models Python's
`TypeError` raised when `add_sale` subscripts the `None` returned by
`fetchone()` for a missing product.  `notFoundError` and
`invalidParameterError` are the error kinds named by the specification;
the code in `src/app.py` never raises either. -/
inductive PyError where
  | typeError
  | notFoundError
  | invalidParameterError
deriving DecidableEq, Repr

/-- SQLite rowid assignment for `INSERT ... VALUES (NULL, ...)` into an
`INTEGER PRIMARY KEY` table: one more than the largest existing rowid
(1 for an empty table). -/
def nextId (ids : List Int) : Int :=
  ids.foldr max 0 + 1

/-- Model of `FinanceSystem.add_product`: inserts a row with a fresh id.  The Python
method performs no validation and returns `None`, so the model returns only
the new state. -/
def add_product (s : State) (name : String)
    (print_time filament_weight sale_price : ℚ) : State :=
  { s with products := s.products ++
      [{ id := nextId (s.products.map (·.id)), name := name,
         print_time := print_time, filament_weight := filament_weight,
         sale_price := sale_price }] }

/-- Model of `FinanceSystem.add_sale`: looks the product up, reads the three
settings, computes the cost breakdown and inserts the sale row.  When the
product is absent, `fetchone()` returns `None` and `product[2]` raises a
`TypeError` before the `INSERT`, so nothing is written. -/
def add_sale (s : State) (product_id : Int) (quantity : Int := 1) :
    Except PyError State :=
  match s.products.find? (fun p => p.id = product_id) with
  | none => .error .typeError
  | some product =>
    let energy_cost : ℚ :=
      (s.settings.printer_power / 1000) * product.print_time *
        s.settings.kwh_price * (quantity : ℚ)
    let filament_cost : ℚ :=
      (product.filament_weight / 1000) * s.settings.filament_price_kg *
        (quantity : ℚ)
    .ok { s with sales := s.sales ++
        [{ id := nextId (s.sales.map (·.id)), product_id := product_id,
           quantity := quantity,
           sale_price := product.sale_price * (quantity : ℚ),
           filament_cost := filament_cost, energy_cost := energy_cost,
           date := s.today }] }

/-- Python truthiness of an optional float argument: `if kwh_price:` is
false for `None` and for `0.0`, true otherwise (negative floats included). -/
def applyIfTruthy (v : Option ℚ) (old : ℚ) : ℚ :=
  match v with
  | none => old
  | some x => if x = 0 then old else x

/-- Model of `FinanceSystem.update_settings(kwh_price=None, printer_power=None,
filament_price=None)`: each `UPDATE` runs only when the corresponding
argument is truthy.  Only the `settings` table is touched. -/
def update_settings (s : State)
    (kwh_price printer_power filament_price : Option ℚ) : State :=
  { s with settings :=
      { kwh_price := applyIfTruthy kwh_price s.settings.kwh_price,
        printer_power := applyIfTruthy printer_power s.settings.printer_power,
        filament_price_kg :=
          applyIfTruthy filament_price s.settings.filament_price_kg } }

/-- One row of the result of the `get_sales` query: a sale joined with its
product's name (`SELECT s.*, p.name as product_name`). -/
structure JoinedSale where
  sale : Sale
  product_name : String
deriving DecidableEq, Repr

/-- The inner join `sales s JOIN products p ON s.product_id = p.id`, rows
in sales-table order.  Product ids are a primary key, so at most one
product matches; a sale whose `product_id` matches no product produces no
row. -/
def joinedSales (s : State) : List JoinedSale :=
  s.sales.filterMap (fun x =>
    (s.products.find? (fun p => p.id = x.product_id)).map
      (fun p => { sale := x, product_name := p.name }))

/-- Stable insertion into a list already sorted by date descending: the
inserted element goes before the first strictly-older element and after
every element with the same or a later date. -/
def insertByDateDesc (a : JoinedSale) : List JoinedSale → List JoinedSale
  | [] => [a]
  | b :: rest =>
    if b.sale.date ≤ a.sale.date then a :: b :: rest
    else b :: insertByDateDesc a rest

/-- Stable sort by date descending, modelling `ORDER BY s.date DESC`.
The SQL names no secondary sort key; the model resolves ties by keeping
the join (sales-table) order, which is id-ascending for rows produced by
`add_sale`: an element is inserted before equal-dated elements of the
already-sorted tail, all of which followed it originally. -/
def sortByDateDesc : List JoinedSale → List JoinedSale
  | [] => []
  | a :: rest => insertByDateDesc a (sortByDateDesc rest)

/-- Model of `FinanceSystem.get_sales`: the join ordered by `s.date DESC`. -/
def get_sales (s : State) : List JoinedSale :=
  sortByDateDesc (joinedSales s)

/-- Result of `FinanceSystem.get_financial_summary`. -/
structure Summary where
  receita_total : ℚ
  custo_total : ℚ
  lucro : ℚ
  margem : ℚ
deriving DecidableEq, Repr

/-- Model of `FinanceSystem.get_financial_summary`: all-zero on an empty join
result; otherwise sums over the joined sales, with the margin guarded by
`receita_total > 0`. -/
def get_financial_summary (s : State) : Summary :=
  let df := get_sales s
  if df.isEmpty then
    { receita_total := 0, custo_total := 0, lucro := 0, margem := 0 }
  else
    let receita_total := (df.map (·.sale.sale_price)).sum
    let custo_total := (df.map (·.sale.filament_cost)).sum +
      (df.map (·.sale.energy_cost)).sum
    let lucro := receita_total - custo_total
    let margem := if receita_total > 0 then lucro / receita_total * 100 else 0
    { receita_total := receita_total, custo_total := custo_total,
      lucro := lucro, margem := margem }

/-- The dashboard's pie-chart aggregation
`sales_df.groupby('product_name')['quantity'].sum()`: total quantity of
the joined sales carrying a given product name. -/
def sales_by_product (s : State) (name : String) : Int :=
  (((get_sales s).filter (fun j => j.product_name = name)).map
    (fun j => j.sale.quantity)).sum

/-- Round half to even at a given scale, modelling pandas/numpy
`.round(2)` (banker's rounding) on the report columns. -/
def roundHalfEven (x : ℚ) : ℤ :=
  if x - ⌊x⌋ < 1/2 then ⌊x⌋
  else if 1/2 < x - ⌊x⌋ then ⌊x⌋ + 1
  else if ⌊x⌋ % 2 = 0 then ⌊x⌋ else ⌊x⌋ + 1

/-- pandas `.round(2)` on a rational value. -/
def round2 (x : ℚ) : ℚ := (roundHalfEven (x * 100) : ℚ) / 100

/-- One row of the dashboard's per-product report. -/
structure ProductSummaryRow where
  quantity : Int
  sale_price : ℚ
  filament_cost : ℚ
  energy_cost : ℚ
  lucro : ℚ
deriving DecidableEq, Repr

/-- The dashboard's `sales.groupby('product_name').agg({...}).round(2)`
row for a given product name, with
`lucro = (sale_price - filament_cost - energy_cost).round(2)`.
The integer `quantity` sum is unaffected by `.round(2)`. -/
def product_summary (s : State) (name : String) : ProductSummaryRow :=
  let g := (get_sales s).filter (fun j => j.product_name = name)
  let q := (g.map (fun j => j.sale.quantity)).sum
  let sp := round2 ((g.map (fun j => j.sale.sale_price)).sum)
  let fc := round2 ((g.map (fun j => j.sale.filament_cost)).sum)
  let ec := round2 ((g.map (fun j => j.sale.energy_cost)).sum)
  { quantity := q, sale_price := sp, filament_cost := fc,
    energy_cost := ec, lucro := round2 (sp - fc - ec) }

/-- Sum of the quantities of the sales rows referencing a given product id
(used to state the grouping-by-name behaviour of the reports). -/
def qtyFor (s : State) (pid : Int) : Int :=
  ((s.sales.filter (fun x => x.product_id = pid)).map (fun x => x.quantity)).sum

/-- Sum of a rational sales-row field over the sales referencing a given
product id. -/
def sumFor (s : State) (pid : Int) (f : Sale → ℚ) : ℚ :=
  ((s.sales.filter (fun x => x.product_id = pid)).map f).sum

/-- A freshly initialized system: empty tables, seeded settings. -/
def emptyState : State :=
  { products := [], sales := [], settings := defaultSettings, today := 0 }

/-- The product of the spec's concrete scenario: 5 h print time, 50 g of
filament, unit sale price 25.00. -/
def demoProduct : Product :=
  { id := 1, name := "p", print_time := 5, filament_weight := 50,
    sale_price := 25 }

/-- State for the concrete scenario: one product, default settings. -/
def demoState : State :=
  { products := [demoProduct],
    sales := [],
    settings := defaultSettings,
    today := 0 }

/-- A sale row as `add_sale` inserts it (used in concrete states). -/
def demoSale (i : Int) (q : Int) (d : Int) : Sale :=
  { id := i, product_id := 1, quantity := q, sale_price := 25 * (q : ℚ),
    filament_cost := 4 * (q : ℚ), energy_cost := (4/5 : ℚ) * (q : ℚ),
    date := d }

/-- One product and two sales recorded on the same date. -/
def twoSaleState : State :=
  { products := [demoProduct],
    sales := [demoSale 1 1 3, demoSale 2 2 3],
    settings := defaultSettings,
    today := 3 }

/-- First of two distinct products sharing the name `"x"`. -/
def dupP1 : Product :=
  { id := 1, name := "x", print_time := 5, filament_weight := 50,
    sale_price := 25 }

/-- Second of two distinct products sharing the name `"x"`. -/
def dupP2 : Product :=
  { id := 2, name := "x", print_time := 2, filament_weight := 20,
    sale_price := 10 }

/-- Two distinct products sharing the name `"x"`, each with one sale. -/
def dupNameState : State :=
  { products := [dupP1, dupP2],
    sales :=
      [{ id := 1, product_id := 1, quantity := 3, sale_price := 75,
         filament_cost := 12, energy_cost := 12/5, date := 1 },
       { id := 2, product_id := 2, quantity := 4, sale_price := 40,
         filament_cost := 32/5, energy_cost := 32/25, date := 2 }],
    settings := defaultSettings,
    today := 2 }

/-- A sales row referencing product id 99, which no product has. -/
def orphanSale : Sale :=
  { id := 7, product_id := 99, quantity := 1, sale_price := 25,
    filament_cost := 4, energy_cost := 4/5, date := 1 }

deriving instance DecidableEq for Except

/-- C1: with a product found under `product_id` and positive inputs, the
sale row stored by `add_sale` carries exactly
`energy_cost = (printer_power / 1000) * print_time_hours * kwh_price * quantity`,
`filament_cost = (filament_weight_grams / 1000) * filament_price_per_kg * quantity`
and `total_sale_amount = unit_sale_price * quantity`, computed from the
settings snapshot in effect at insertion. -/
theorem add_sale_cost_breakdown (s : State) (p : Product) (q : Int)
    (hfind : s.products.find? (fun x => x.id = p.id) = some p)
    (_hq : 0 < q) (_hpt : 0 < p.print_time)
    (_hfw : 0 < p.filament_weight) (_hsp : 0 < p.sale_price) :
    add_sale s p.id q = .ok { s with sales := s.sales ++
      [{ id := nextId (s.sales.map (·.id)), product_id := p.id,
         quantity := q,
         sale_price := p.sale_price * (q : ℚ),
         filament_cost :=
           p.filament_weight / 1000 * s.settings.filament_price_kg * (q : ℚ),
         energy_cost := s.settings.printer_power / 1000 * p.print_time *
           s.settings.kwh_price * (q : ℚ),
         date := s.today }] } := by
  unfold add_sale
  rw [hfind]

/-- C1 witness: the spec's concrete scenario — settings
`(0.80, 200, 80.0)`, product `(5 h, 50 g, 25.00)`, quantity 2 — yields
`energy_cost = 1.60`, `filament_cost = 8.00`, `total_sale_amount = 50.00`. -/
theorem add_sale_cost_breakdown_witness :
    add_sale demoState 1 2 = .ok { demoState with sales :=
      [{ id := 1, product_id := 1, quantity := 2, sale_price := 50,
         filament_cost := 8, energy_cost := 8/5, date := 0 }] } := by
  have h := add_sale_cost_breakdown demoState demoProduct 2 rfl
    (by decide) (by decide) (by decide) (by decide)
  simp only [demoState, demoProduct, defaultSettings, nextId, List.map_nil,
    List.foldr_nil, List.nil_append] at h ⊢
  rw [h]
  norm_num

/-- C2: `update_settings` touches only the `settings` table: the whole
sales ledger (hence every stored field of every previously recorded sale)
and the product catalog are unchanged, for any combination of new
values. -/
theorem update_settings_preserves_sales (s : State)
    (kwh_price printer_power filament_price : Option ℚ) :
    (update_settings s kwh_price printer_power filament_price).sales =
        s.sales ∧
      (update_settings s kwh_price printer_power filament_price).products =
        s.products := ⟨rfl, rfl⟩

/-- C3 counterexample: on a fresh system with no products, recording a
sale for product id 1 fails with a `TypeError` (from subscripting the
`None` product row), not with the `NotFoundError` the claim names. -/
theorem add_sale_missing_raises_type_error :
    add_sale emptyState 1 1 = .error .typeError ∧
      PyError.typeError ≠ PyError.notFoundError := by
  exact ⟨rfl, by decide⟩

/-- C3 amended: when `product_id` references no existing product,
`add_sale` fails — with Python's `TypeError` rather than a
`NotFoundError` — and writes nothing: no state is produced, so the
ledger is exactly as before. -/
theorem add_sale_missing_product (s : State) (pid q : Int)
    (h : ∀ p ∈ s.products, p.id ≠ pid) :
    add_sale s pid q = .error .typeError := by
  have hnone : s.products.find? (fun p => p.id = pid) = none := by
    rw [List.find?_eq_none]
    intro p hp
    simpa using h p hp
  unfold add_sale
  rw [hnone]

/-- C3 amended, witness at a concrete input. -/
theorem add_sale_missing_product_witness :
    add_sale emptyState 5 1 = .error .typeError :=
  add_sale_missing_product emptyState 5 1 (by simp [emptyState])

/-- C5 counterexample: with product 1 present, `add_sale` called with
quantity 0 does not fail with `InvalidParameterError` — it succeeds and
appends a sale row with quantity 0 and zero costs, changing the ledger. -/
theorem add_sale_quantity_zero_accepted :
    add_sale demoState 1 0 = .ok { demoState with sales :=
      [{ id := 1, product_id := 1, quantity := 0, sale_price := 0,
         filament_cost := 0, energy_cost := 0, date := 0 }] } := by
  show Except.ok _ = _
  simp only [demoState, demoProduct, defaultSettings, nextId, List.map_nil,
    List.foldr_nil, List.nil_append, Except.ok.injEq, State.mk.injEq,
    List.cons.injEq, Sale.mk.injEq, and_true, true_and]
  norm_num

/-- C5 amended: `add_sale` performs no quantity validation at all: for a
non-positive (or any) integer quantity and an existing product it
succeeds, appending one sale row that records that quantity with the
costs scaled by it; no `InvalidParameterError` is ever raised. -/
theorem add_sale_no_quantity_validation (s : State) (p : Product)
    (pid q : Int) (_hq : q ≤ 0)
    (hfind : s.products.find? (fun x => x.id = pid) = some p) :
    add_sale s pid q = .ok { s with sales := s.sales ++
      [{ id := nextId (s.sales.map (·.id)), product_id := pid,
         quantity := q,
         sale_price := p.sale_price * (q : ℚ),
         filament_cost :=
           p.filament_weight / 1000 * s.settings.filament_price_kg * (q : ℚ),
         energy_cost := s.settings.printer_power / 1000 * p.print_time *
           s.settings.kwh_price * (q : ℚ),
         date := s.today }] } := by
  unfold add_sale
  rw [hfind]

/-- C5 amended, witness: quantity `-3` is recorded as-is. -/
theorem add_sale_no_quantity_validation_witness :
    add_sale demoState 1 (-3) = .ok { demoState with sales :=
      [{ id := 1, product_id := 1, quantity := -3, sale_price := -75,
         filament_cost := -12, energy_cost := -12/5, date := 0 }] } := by
  have h := add_sale_no_quantity_validation demoState demoProduct 1 (-3)
    (by decide) rfl
  simp only [demoState, demoProduct, defaultSettings, nextId, List.map_nil,
    List.foldr_nil, List.nil_append] at h ⊢
  rw [h]
  norm_num

/-- C6 counterexample: `add_product` accepts an empty name and negative
numeric fields without raising `InvalidParameterError` — the invalid row
is simply inserted.  (The Python method also returns `None`, not the new
id; the model's return type records this.) -/
theorem add_product_accepts_invalid :
    (add_product emptyState "" (-1) (-1) (-1)).products =
      [{ id := 1, name := "", print_time := -1, filament_weight := -1,
         sale_price := -1 }] := by
  simp only [add_product, emptyState, nextId, List.map_nil, List.foldr_nil,
    List.nil_append, List.cons.injEq, Product.mk.injEq]
  norm_num

/-- C6 amended: `add_product` performs no validation — any name
(including the empty string) and any numeric values (including
non-positive ones) are inserted unconditionally — and the inserted row
receives a fresh id distinct from every existing product id; the method
returns `None` (no id is returned to the caller). -/
theorem mem_le_foldr_max (i : Int) (l : List Int) (h : i ∈ l) :
    i ≤ l.foldr max 0 := by
  induction l with
  | nil => simp at h
  | cons j rest ih =>
    rcases List.mem_cons.mp h with rfl | h
    · simp [le_max_iff]
    · simp only [List.foldr_cons, le_max_iff]
      exact Or.inr (ih h)

theorem add_product_no_validation (s : State) (name : String) (a b c : ℚ) :
    (add_product s name a b c).products = s.products ++
        [{ id := nextId (s.products.map (·.id)), name := name,
           print_time := a, filament_weight := b, sale_price := c }] ∧
      ∀ p ∈ s.products, p.id ≠ nextId (s.products.map (·.id)) := by
  refine ⟨rfl, fun p hp => ?_⟩
  have hle : p.id ≤ (s.products.map (·.id)).foldr max 0 :=
    mem_le_foldr_max p.id _ (List.mem_map_of_mem _ hp)
  intro hc
  rw [hc] at hle
  simp only [nextId] at hle
  omega

/-- C6 amended, witness at a concrete invalid input. -/
theorem add_product_no_validation_witness :
    (add_product emptyState "" (-1) (-1) (-1)).products = [] ++
        [{ id := nextId (([] : List Product).map (·.id)), name := "",
           print_time := -1, filament_weight := -1, sale_price := -1 }] ∧
      ∀ p ∈ ([] : List Product), p.id ≠
        nextId (([] : List Product).map (·.id)) :=
  add_product_no_validation emptyState "" (-1) (-1) (-1)

/-- C7 counterexample: with default settings (kwh_price 0.80), supplying
`kwh_price = -1` is not rejected — the negative value is stored — and
supplying `kwh_price = 0` does not set the key to 0: it is silently
ignored and the key keeps its prior value. -/
theorem update_settings_truthiness_quirk :
    (update_settings demoState (some (-1)) none none).settings.kwh_price
        = -1 ∧
      (update_settings demoState (some 0) none none).settings.kwh_price
        = 8/10 := by
  constructor
  · simp [update_settings, applyIfTruthy]
  · simp [update_settings, applyIfTruthy, demoState, defaultSettings]

/-- C7 amended: `update_settings` updates a key only when the supplied
value is truthy (present and nonzero): an unsupplied key keeps its prior
value, a supplied `0` is silently ignored (the key also keeps its prior
value), and any nonzero supplied value — negative included — is stored
without error; the sales ledger is untouched. -/
theorem update_settings_partial_update (s : State) (k pw f : Option ℚ) :
    ((k = none ∨ k = some 0) →
        (update_settings s k pw f).settings.kwh_price =
          s.settings.kwh_price) ∧
      (∀ v, k = some v → v ≠ 0 →
        (update_settings s k pw f).settings.kwh_price = v) ∧
      ((pw = none ∨ pw = some 0) →
        (update_settings s k pw f).settings.printer_power =
          s.settings.printer_power) ∧
      (∀ v, pw = some v → v ≠ 0 →
        (update_settings s k pw f).settings.printer_power = v) ∧
      ((f = none ∨ f = some 0) →
        (update_settings s k pw f).settings.filament_price_kg =
          s.settings.filament_price_kg) ∧
      (∀ v, f = some v → v ≠ 0 →
        (update_settings s k pw f).settings.filament_price_kg = v) ∧
      (update_settings s k pw f).sales = s.sales := by
  refine ⟨?_, ?_, ?_, ?_, ?_, ?_, rfl⟩
  · rintro (rfl | rfl) <;> simp [update_settings, applyIfTruthy]
  · rintro v rfl hv
    simp [update_settings, applyIfTruthy, hv]
  · rintro (rfl | rfl) <;> simp [update_settings, applyIfTruthy]
  · rintro v rfl hv
    simp [update_settings, applyIfTruthy, hv]
  · rintro (rfl | rfl) <;> simp [update_settings, applyIfTruthy]
  · rintro v rfl hv
    simp [update_settings, applyIfTruthy, hv]

/-- C7 amended, witness: ignored zero, stored negative, unsupplied key
kept, ledger untouched, at concrete inputs. -/
theorem update_settings_partial_update_witness :
    (((some 0 : Option ℚ) = none ∨ (some 0 : Option ℚ) = some 0) →
        (update_settings demoState (some 0) (some (-5)) none
          ).settings.kwh_price = demoState.settings.kwh_price) ∧
      (∀ v, (some 0 : Option ℚ) = some v → v ≠ 0 →
        (update_settings demoState (some 0) (some (-5)) none
          ).settings.kwh_price = v) ∧
      (((some (-5) : Option ℚ) = none ∨ (some (-5) : Option ℚ) = some 0) →
        (update_settings demoState (some 0) (some (-5)) none
          ).settings.printer_power = demoState.settings.printer_power) ∧
      (∀ v, (some (-5) : Option ℚ) = some v → v ≠ 0 →
        (update_settings demoState (some 0) (some (-5)) none
          ).settings.printer_power = v) ∧
      (((none : Option ℚ) = none ∨ (none : Option ℚ) = some 0) →
        (update_settings demoState (some 0) (some (-5)) none
          ).settings.filament_price_kg =
          demoState.settings.filament_price_kg) ∧
      (∀ v, (none : Option ℚ) = some v → v ≠ 0 →
        (update_settings demoState (some 0) (some (-5)) none
          ).settings.filament_price_kg = v) ∧
      (update_settings demoState (some 0) (some (-5)) none).sales =
        demoState.sales :=
  update_settings_partial_update demoState (some 0) (some (-5)) none

theorem insertByDateDesc_perm (a : JoinedSale) :
    ∀ l, List.Perm (insertByDateDesc a l) (a :: l)
  | [] => List.Perm.refl _
  | b :: rest => by
    unfold insertByDateDesc
    by_cases h : b.sale.date ≤ a.sale.date
    · rw [if_pos h]
    · rw [if_neg h]
      exact ((insertByDateDesc_perm a rest).cons b).trans
        (List.Perm.swap a b rest)

theorem sortByDateDesc_perm : ∀ l, List.Perm (sortByDateDesc l) l
  | [] => List.Perm.refl _
  | a :: rest =>
    (insertByDateDesc_perm a _).trans ((sortByDateDesc_perm rest).cons a)

theorem insertByDateDesc_pairwise (a : JoinedSale) :
    ∀ l, l.Pairwise (fun x y => y.sale.date ≤ x.sale.date) →
      (insertByDateDesc a l).Pairwise (fun x y => y.sale.date ≤ x.sale.date)
  | [], _ => by simp [insertByDateDesc]
  | b :: rest, h => by
    rcases List.pairwise_cons.mp h with ⟨hb, hrest⟩
    unfold insertByDateDesc
    by_cases hba : b.sale.date ≤ a.sale.date
    · rw [if_pos hba]
      refine List.pairwise_cons.mpr ⟨?_, h⟩
      intro c hc
      rcases List.mem_cons.mp hc with rfl | hc
      · exact hba
      · exact le_trans (hb c hc) hba
    · rw [if_neg hba]
      refine List.pairwise_cons.mpr
        ⟨?_, insertByDateDesc_pairwise a rest hrest⟩
      intro c hc
      have hc' : c ∈ a :: rest := (insertByDateDesc_perm a rest).mem_iff.mp hc
      rcases List.mem_cons.mp hc' with rfl | hc'
      · exact le_of_not_le hba
      · exact hb c hc'

theorem sortByDateDesc_pairwise :
    ∀ l, (sortByDateDesc l).Pairwise (fun x y => y.sale.date ≤ x.sale.date)
  | [] => by simp [sortByDateDesc]
  | a :: rest => insertByDateDesc_pairwise a _ (sortByDateDesc_pairwise rest)

/-- C8 counterexample: one product and two sales with ids 1 and 2 on the
same date — `get_sales` lists them id-ascending `[1, 2]`, not the
id-descending `[2, 1]` the claim requires for equal dates. -/
theorem get_sales_tie_order_not_id_desc :
    (get_sales twoSaleState).map (fun j => j.sale.id) = [1, 2] ∧
      ([1, 2] : List Int) ≠ [2, 1] := by
  constructor
  · rfl
  · decide

/-- C8 amended: `get_sales` returns the sales joined with their product's
name ordered by date descending only; the query specifies no tie-break,
and in the model equal-date rows keep the join (sales-table) order — id
ascending for rows produced by `add_sale` — not id descending. -/
theorem get_sales_sorted_by_date_desc (s : State) :
    (get_sales s).Pairwise (fun x y => y.sale.date ≤ x.sale.date) ∧
      List.Perm (get_sales s) (joinedSales s) :=
  ⟨sortByDateDesc_pairwise _, sortByDateDesc_perm _⟩

theorem joined_map_sale (P : List Product) :
    ∀ L : List Sale, (∀ x ∈ L, ∃ p ∈ P, p.id = x.product_id) →
      ((L.filterMap (fun x =>
        (P.find? (fun p => p.id = x.product_id)).map
          (fun p => JoinedSale.mk x p.name))).map (fun j => j.sale)) = L
  | [], _ => rfl
  | x :: L, h => by
    have hx : (P.find? (fun p => p.id = x.product_id)).isSome := by
      rw [List.find?_isSome]
      rcases h x (List.Mem.head _) with ⟨p, hp, hid⟩
      exact ⟨p, hp, by simpa using hid⟩
    simp only [List.filterMap_cons]
    cases hf : P.find? (fun p => p.id = x.product_id) with
    | none => rw [hf] at hx; simp at hx
    | some p =>
      simp only [Option.map_some', List.map_cons]
      exact congrArg (x :: ·)
        (joined_map_sale P L (fun y hy => h y (List.Mem.tail _ hy)))

theorem get_sales_field_sum (s : State) (f : Sale → ℚ)
    (hall : ∀ x ∈ s.sales, ∃ p ∈ s.products, p.id = x.product_id) :
    ((get_sales s).map (fun j => f j.sale)).sum = (s.sales.map f).sum := by
  have hperm : List.Perm (get_sales s) (joinedSales s) := sortByDateDesc_perm _
  have h1 : ((get_sales s).map (fun j => f j.sale)).sum =
      ((joinedSales s).map (fun j => f j.sale)).sum :=
    (hperm.map _).sum_eq
  have h2 : (joinedSales s).map (fun j => f j.sale) = s.sales.map f := by
    have h3 : (joinedSales s).map (fun j => j.sale) = s.sales :=
      joined_map_sale s.products s.sales hall
    conv_rhs => rw [← h3]
    rw [List.map_map]
    rfl
  rw [h1, h2]

theorem get_sales_length (s : State)
    (hall : ∀ x ∈ s.sales, ∃ p ∈ s.products, p.id = x.product_id) :
    (get_sales s).length = s.sales.length := by
  have h1 := (sortByDateDesc_perm (joinedSales s)).length_eq
  have h2 : (joinedSales s).length = s.sales.length := by
    conv_rhs => rw [← joined_map_sale s.products s.sales hall]
    rw [List.length_map]
    rfl
  rw [get_sales, h1, h2]

/-- C4: under the reachable-state invariant that every sale references an
existing product (which `add_sale` enforces, since it fails before
writing when the product is missing), the financial summary satisfies
`total_revenue = sum(total_sale_amount)`,
`total_cost = sum(filament_cost) + sum(energy_cost)`,
`profit = total_revenue - total_cost`,
`margin = profit / total_revenue * 100` when revenue is positive and `0`
otherwise; on an empty ledger all four fields are exactly 0. -/
theorem financial_summary_formulas (s : State)
    (hall : ∀ x ∈ s.sales, ∃ p ∈ s.products, p.id = x.product_id) :
    (get_financial_summary s).receita_total =
        (s.sales.map (fun x => x.sale_price)).sum ∧
      (get_financial_summary s).custo_total =
        (s.sales.map (fun x => x.filament_cost)).sum +
          (s.sales.map (fun x => x.energy_cost)).sum ∧
      (get_financial_summary s).lucro =
        (get_financial_summary s).receita_total -
          (get_financial_summary s).custo_total ∧
      (get_financial_summary s).margem =
        (if (get_financial_summary s).receita_total > 0 then
          (get_financial_summary s).lucro /
            (get_financial_summary s).receita_total * 100
        else 0) ∧
      (s.sales = [] →
        get_financial_summary s =
          { receita_total := 0, custo_total := 0, lucro := 0, margem := 0 }) := by
  by_cases hs : s.sales = []
  · have hempty : get_sales s = [] := by
      have := get_sales_length s hall
      rw [hs] at this
      exact List.eq_nil_of_length_eq_zero this
    have hsum : get_financial_summary s =
        { receita_total := 0, custo_total := 0, lucro := 0, margem := 0 } := by
      rw [get_financial_summary, hempty]
      rfl
    refine ⟨?_, ?_, ?_, ?_, fun _ => hsum⟩ <;> rw [hsum] <;> simp [hs]
  · have hne : (get_sales s).isEmpty = false := by
      rw [List.isEmpty_eq_false]
      intro h0
      apply hs
      have hlen := get_sales_length s hall
      rw [h0] at hlen
      exact List.eq_nil_of_length_eq_zero hlen.symm
    have hr := get_sales_field_sum s (fun x => x.sale_price) hall
    have hf := get_sales_field_sum s (fun x => x.filament_cost) hall
    have he := get_sales_field_sum s (fun x => x.energy_cost) hall
    rw [get_financial_summary]
    have hf2 : (List.map (fun x : JoinedSale => x.sale.filament_cost)
        (get_sales s)).sum =
        (List.map (fun x : Sale => x.filament_cost) s.sales).sum := hf
    have he2 : (List.map (fun x : JoinedSale => x.sale.energy_cost)
        (get_sales s)).sum =
        (List.map (fun x : Sale => x.energy_cost) s.sales).sum := he
    simp only [hne, Bool.false_eq_true, if_false]
    exact ⟨hr, by rw [hf2, he2], trivial, trivial, fun hcon => absurd hcon hs⟩

/-- C4 witness: two recorded sales give revenue 75, cost 15, profit 60,
margin 80, and the formulas hold at this concrete ledger. -/
theorem financial_summary_formulas_witness :
    (get_financial_summary twoSaleState).receita_total =
        (twoSaleState.sales.map (fun x => x.sale_price)).sum ∧
      (get_financial_summary twoSaleState).custo_total =
        (twoSaleState.sales.map (fun x => x.filament_cost)).sum +
          (twoSaleState.sales.map (fun x => x.energy_cost)).sum ∧
      (get_financial_summary twoSaleState).lucro =
        (get_financial_summary twoSaleState).receita_total -
          (get_financial_summary twoSaleState).custo_total ∧
      (get_financial_summary twoSaleState).margem =
        (if (get_financial_summary twoSaleState).receita_total > 0 then
          (get_financial_summary twoSaleState).lucro /
            (get_financial_summary twoSaleState).receita_total * 100
        else 0) ∧
      (twoSaleState.sales = [] →
        get_financial_summary twoSaleState =
          { receita_total := 0, custo_total := 0, lucro := 0, margem := 0 }) :=
  financial_summary_formulas twoSaleState (by
    intro x hx
    exact ⟨demoProduct, List.Mem.head _, by
      rcases hx with _ | ⟨_, hx⟩
      · rfl
      · rcases hx with _ | ⟨_, hx⟩
        · rfl
        · cases hx⟩)

theorem find?_eq_some_of_mem_nodup {P : List Product} {p : Product}
    (hnd : (P.map (fun x => x.id)).Nodup) (hp : p ∈ P) :
    P.find? (fun x => x.id = p.id) = some p := by
  induction P with
  | nil => cases hp
  | cons q rest ih =>
    by_cases hq : q.id = p.id
    · have hqp : q = p := by
        rcases List.mem_cons.mp hp with rfl | hp'
        · rfl
        · exfalso
          have : q.id ∈ rest.map (fun x => x.id) := by
            rw [hq]
            exact List.mem_map_of_mem _ hp'
          simp only [List.map_cons, List.nodup_cons] at hnd
          exact hnd.1 this
      rw [List.find?_cons_of_pos _ (by simpa using hq), hqp]
    · have hp' : p ∈ rest := by
        rcases List.mem_cons.mp hp with rfl | hp'
        · exact absurd rfl hq
        · exact hp'
      rw [List.find?_cons_of_neg _ (by simpa using hq)]
      simp only [List.map_cons, List.nodup_cons] at hnd
      exact ih hnd.2 hp'

theorem eq_of_id_eq {P : List Product} {p q : Product}
    (hnd : (P.map (fun x => x.id)).Nodup) (hp : p ∈ P) (hq : q ∈ P)
    (h : p.id = q.id) : p = q :=
  List.inj_on_of_nodup_map hnd hp hq h

theorem grouped_filter_sum {M : Type} [AddCommMonoid M]
    (P : List Product) (n : String) (p1 p2 : Product) (f : Sale → M)
    (hnd : (P.map (fun x => x.id)).Nodup) (h1 : p1 ∈ P) (h2 : p2 ∈ P)
    (hne : p1.id ≠ p2.id) (hn1 : p1.name = n) (hn2 : p2.name = n)
    (honly : ∀ p ∈ P, p.name = n → p.id = p1.id ∨ p.id = p2.id) :
    ∀ L : List Sale,
      (((L.filterMap (fun x =>
          (P.find? (fun p => p.id = x.product_id)).map
            (fun p => JoinedSale.mk x p.name))).filter
          (fun j => j.product_name = n)).map (fun j => f j.sale)).sum =
        ((L.filter (fun x => x.product_id = p1.id)).map f).sum +
          ((L.filter (fun x => x.product_id = p2.id)).map f).sum
  | [] => by simp
  | x :: L => by
    have ih := grouped_filter_sum P n p1 p2 f hnd h1 h2 hne hn1 hn2 honly L
    simp only [List.filterMap_cons]
    cases hf : P.find? (fun p => p.id = x.product_id) with
    | none =>
      have hnofind : ∀ p ∈ P, p.id ≠ x.product_id := by
        intro p hp
        have := List.find?_eq_none.mp hf p hp
        simpa using this
      have hx1 : ¬(x.product_id = p1.id) := fun hc =>
        hnofind p1 h1 (by rw [hc])
      have hx2 : ¬(x.product_id = p2.id) := fun hc =>
        hnofind p2 h2 (by rw [hc])
      simp only [List.filter_cons, hx1, hx2, decide_False, if_false]
      exact ih
    | some p =>
      have hpmem : p ∈ P := List.mem_of_find?_eq_some hf
      have hpid : p.id = x.product_id := by
        have := List.find?_some hf
        simpa using this
      simp only [Option.map_some', List.filter_cons]
      by_cases hpn : p.name = n
      · have hb0 : decide ((JoinedSale.mk x p.name).product_name = n) =
            true := by simp [hpn]
        rcases honly p hpmem hpn with hid | hid
        · have hx1 : x.product_id = p1.id := by rw [← hpid, hid]
          have hx2 : ¬(x.product_id = p2.id) := by rw [hx1]; exact hne
          have hb1 : decide (x.product_id = p1.id) = true := by simp [hx1]
          have hb2 : decide (x.product_id = p2.id) = false := by simp [hx2]
          simp only [hb0, hb1, hb2, eq_self_iff_true, Bool.false_eq_true,
            if_true, if_false, List.map_cons, List.sum_cons]
          rw [ih, add_assoc]
        · have hx2 : x.product_id = p2.id := by rw [← hpid, hid]
          have hx1 : ¬(x.product_id = p1.id) := by
            rw [hx2]
            exact fun hc => hne hc.symm
          have hb1 : decide (x.product_id = p1.id) = false := by simp [hx1]
          have hb2 : decide (x.product_id = p2.id) = true := by simp [hx2]
          simp only [hb0, hb1, hb2, eq_self_iff_true, Bool.false_eq_true,
            if_true, if_false, List.map_cons, List.sum_cons]
          rw [ih, add_left_comm]
      · have hx1 : ¬(x.product_id = p1.id) := by
          intro hc
          apply hpn
          have hpp1 : p = p1 := eq_of_id_eq hnd hpmem h1 (by rw [hpid, hc])
          rw [hpp1, hn1]
        have hx2 : ¬(x.product_id = p2.id) := by
          intro hc
          apply hpn
          have hpp2 : p = p2 := eq_of_id_eq hnd hpmem h2 (by rw [hpid, hc])
          rw [hpp2, hn2]
        simp only [hpn, hx1, hx2, decide_False, if_false]
        exact ih

theorem get_sales_grouped_sum {M : Type} [AddCommMonoid M] (s : State)
    (n : String) (p1 p2 : Product) (f : Sale → M)
    (hnd : (s.products.map (fun x => x.id)).Nodup) (h1 : p1 ∈ s.products)
    (h2 : p2 ∈ s.products) (hne : p1.id ≠ p2.id) (hn1 : p1.name = n)
    (hn2 : p2.name = n)
    (honly : ∀ p ∈ s.products, p.name = n → p.id = p1.id ∨ p.id = p2.id) :
    (((get_sales s).filter (fun j => j.product_name = n)).map
        (fun j => f j.sale)).sum =
      ((s.sales.filter (fun x => x.product_id = p1.id)).map f).sum +
        ((s.sales.filter (fun x => x.product_id = p2.id)).map f).sum := by
  have hperm : List.Perm
      ((get_sales s).filter (fun j => j.product_name = n))
      ((joinedSales s).filter (fun j => j.product_name = n)) :=
    (sortByDateDesc_perm _).filter _
  rw [(hperm.map (fun j => f j.sale)).sum_eq]
  exact grouped_filter_sum s.products n p1 p2 f hnd h1 h2 hne hn1 hn2
    honly s.sales

/-- C9: the dashboard reports group by product name, not id.  For two
distinct products sharing one name, with no other product of that name,
the quantity-by-product mapping returns the merged quantity of both
products' sales under that single name, and the per-product summary row
likewise merges their quantity, revenue, filament-cost and energy-cost
totals. -/
theorem reports_group_by_name (s : State) (n : String) (p1 p2 : Product)
    (hnd : (s.products.map (fun x => x.id)).Nodup) (h1 : p1 ∈ s.products)
    (h2 : p2 ∈ s.products) (hne : p1.id ≠ p2.id) (hn1 : p1.name = n)
    (hn2 : p2.name = n)
    (honly : ∀ p ∈ s.products, p.name = n → p.id = p1.id ∨ p.id = p2.id) :
    sales_by_product s n = qtyFor s p1.id + qtyFor s p2.id ∧
      product_summary s n =
        { quantity := qtyFor s p1.id + qtyFor s p2.id,
          sale_price := round2 (sumFor s p1.id (fun x => x.sale_price) +
            sumFor s p2.id (fun x => x.sale_price)),
          filament_cost := round2 (sumFor s p1.id (fun x => x.filament_cost) +
            sumFor s p2.id (fun x => x.filament_cost)),
          energy_cost := round2 (sumFor s p1.id (fun x => x.energy_cost) +
            sumFor s p2.id (fun x => x.energy_cost)),
          lucro := round2
            (round2 (sumFor s p1.id (fun x => x.sale_price) +
                sumFor s p2.id (fun x => x.sale_price)) -
              round2 (sumFor s p1.id (fun x => x.filament_cost) +
                sumFor s p2.id (fun x => x.filament_cost)) -
              round2 (sumFor s p1.id (fun x => x.energy_cost) +
                sumFor s p2.id (fun x => x.energy_cost))) } := by
  have hq : (((get_sales s).filter (fun j => j.product_name = n)).map
      (fun j => j.sale.quantity)).sum =
      qtyFor s p1.id + qtyFor s p2.id :=
    get_sales_grouped_sum s n p1 p2 (fun x => x.quantity) hnd h1 h2 hne
      hn1 hn2 honly
  have hsp : (((get_sales s).filter (fun j => j.product_name = n)).map
      (fun j => j.sale.sale_price)).sum =
      sumFor s p1.id (fun x => x.sale_price) +
        sumFor s p2.id (fun x => x.sale_price) :=
    get_sales_grouped_sum s n p1 p2 (fun x => x.sale_price) hnd h1 h2 hne
      hn1 hn2 honly
  have hfc : (((get_sales s).filter (fun j => j.product_name = n)).map
      (fun j => j.sale.filament_cost)).sum =
      sumFor s p1.id (fun x => x.filament_cost) +
        sumFor s p2.id (fun x => x.filament_cost) :=
    get_sales_grouped_sum s n p1 p2 (fun x => x.filament_cost) hnd h1 h2 hne
      hn1 hn2 honly
  have hec : (((get_sales s).filter (fun j => j.product_name = n)).map
      (fun j => j.sale.energy_cost)).sum =
      sumFor s p1.id (fun x => x.energy_cost) +
        sumFor s p2.id (fun x => x.energy_cost) :=
    get_sales_grouped_sum s n p1 p2 (fun x => x.energy_cost) hnd h1 h2 hne
      hn1 hn2 honly
  constructor
  · exact hq
  · rw [product_summary]
    simp only [hq, hsp, hfc, hec]

/-- C9 witness: two products with ids 1 and 2 both named `"x"`, one sale
each (quantities 3 and 4) — the reports merge them under `"x"`. -/
theorem reports_group_by_name_witness :
    sales_by_product dupNameState "x" =
        qtyFor dupNameState dupP1.id + qtyFor dupNameState dupP2.id ∧
      product_summary dupNameState "x" =
        { quantity := qtyFor dupNameState dupP1.id +
            qtyFor dupNameState dupP2.id,
          sale_price := round2
            (sumFor dupNameState dupP1.id (fun x => x.sale_price) +
              sumFor dupNameState dupP2.id (fun x => x.sale_price)),
          filament_cost := round2
            (sumFor dupNameState dupP1.id (fun x => x.filament_cost) +
              sumFor dupNameState dupP2.id (fun x => x.filament_cost)),
          energy_cost := round2
            (sumFor dupNameState dupP1.id (fun x => x.energy_cost) +
              sumFor dupNameState dupP2.id (fun x => x.energy_cost)),
          lucro := round2
            (round2 (sumFor dupNameState dupP1.id (fun x => x.sale_price) +
                sumFor dupNameState dupP2.id (fun x => x.sale_price)) -
              round2 (sumFor dupNameState dupP1.id
                  (fun x => x.filament_cost) +
                sumFor dupNameState dupP2.id (fun x => x.filament_cost)) -
              round2 (sumFor dupNameState dupP1.id
                  (fun x => x.energy_cost) +
                sumFor dupNameState dupP2.id (fun x => x.energy_cost))) } :=
  reports_group_by_name dupNameState "x" dupP1 dupP2 (by decide)
    (List.Mem.head _) (List.Mem.tail _ (List.Mem.head _)) (by decide)
    rfl rfl (by decide)

theorem mem_joinedSales_has_product (s : State) (j : JoinedSale)
    (hj : j ∈ joinedSales s) : ∃ p ∈ s.products, p.id = j.sale.product_id := by
  rcases List.mem_filterMap.mp hj with ⟨y, _, hy⟩
  rcases Option.map_eq_some'.mp hy with ⟨p, hfind, hpj⟩
  have hpmem : p ∈ s.products := List.mem_of_find?_eq_some hfind
  have hpid : p.id = y.product_id := by
    have := List.find?_some hfind
    simpa using this
  have hsale : j.sale = y := by rw [← hpj]
  exact ⟨p, hpmem, by rw [hsale, hpid]⟩

/-- C10: every read-side operation derives from the inner join of sales
to products.  Appending a sale row whose `product_id` matches no product
leaves `get_sales`, the financial summary and both per-product reports
exactly unchanged, and every row the listing does return references an
existing product — so the orphan row is absent from it. -/
theorem orphan_sale_invisible (s : State) (x : Sale)
    (h : ∀ p ∈ s.products, p.id ≠ x.product_id) :
    get_sales { s with sales := s.sales ++ [x] } = get_sales s ∧
      get_financial_summary { s with sales := s.sales ++ [x] } =
        get_financial_summary s ∧
      (∀ n, sales_by_product { s with sales := s.sales ++ [x] } n =
        sales_by_product s n) ∧
      (∀ n, product_summary { s with sales := s.sales ++ [x] } n =
        product_summary s n) ∧
      (∀ j ∈ get_sales { s with sales := s.sales ++ [x] },
        j.sale.product_id ≠ x.product_id) := by
  have hnone : s.products.find? (fun p => p.id = x.product_id) = none := by
    rw [List.find?_eq_none]
    intro p hp
    simpa using h p hp
  have hjoined : joinedSales { s with sales := s.sales ++ [x] } =
      joinedSales s := by
    rw [joinedSales, joinedSales, List.filterMap_append]
    simp [hnone]
  have hg : get_sales { s with sales := s.sales ++ [x] } = get_sales s := by
    rw [get_sales, get_sales, hjoined]
  refine ⟨hg, ?_, ?_, ?_, ?_⟩
  · rw [get_financial_summary, get_financial_summary, hg]
  · intro n
    rw [sales_by_product, sales_by_product, hg]
  · intro n
    rw [product_summary, product_summary, hg]
  · intro j hj
    rw [hg] at hj
    have hj' : j ∈ joinedSales s :=
      (sortByDateDesc_perm (joinedSales s)).mem_iff.mp hj
    rcases mem_joinedSales_has_product s j hj' with ⟨p, hp, hpid⟩
    intro hc
    exact h p hp (by rw [hpid, hc])

/-- C10 witness: appending a sale referencing the nonexistent product id
99 to a two-sale ledger changes no read-side result, and the listing
never shows a row with product id 99. -/
theorem orphan_sale_invisible_witness :
    get_sales { twoSaleState with
        sales := twoSaleState.sales ++ [orphanSale] } =
        get_sales twoSaleState ∧
      get_financial_summary { twoSaleState with
          sales := twoSaleState.sales ++ [orphanSale] } =
        get_financial_summary twoSaleState ∧
      (∀ n, sales_by_product { twoSaleState with
          sales := twoSaleState.sales ++ [orphanSale] } n =
        sales_by_product twoSaleState n) ∧
      (∀ n, product_summary { twoSaleState with
          sales := twoSaleState.sales ++ [orphanSale] } n =
        product_summary twoSaleState n) ∧
      (∀ j ∈ get_sales { twoSaleState with
          sales := twoSaleState.sales ++ [orphanSale] },
        j.sale.product_id ≠ orphanSale.product_id) :=
  orphan_sale_invisible twoSaleState orphanSale (by decide)

end FinanceApp
